import Mathlib

/-!
Shallow embedding of `src/app/api/migrate/templates/route.ts` (the `POST`
handler of the HubSpot → SFMC template migrator) and proofs of the spec's
claims about it.

Modelling conventions:
* JavaScript string-valued object fields become `Option String`; JS truthiness
  of such a field is `truthyS` (absent or empty string is falsy).
* Collaborator calls (credential store, SFMC token exchange, folder APIs, the
  four HubSpot template endpoints, the converter, the asset-create API) are
  fields of an `Env` record; a fallible call is `Except`.
* The handler becomes the pure function `post : Env → Body → Response × Trace`;
  `Trace` records which collaborators were invoked (endpoint fetch, folder
  creation, every asset-create call) so that call-count claims are statable.
-/

/-- JS truthiness of an optional string field: `undefined` and `""` are falsy. -/
def truthyS : Option String → Bool
  | none => false
  | some s => s != ""

/-- JS `a || b` on optional string fields. -/
def orS (a b : Option String) : Option String :=
  if truthyS a then a else b

/-- A source template object as the route reads it: the fields the handler
accesses (`id`, `name`, `source`, `content`, `html`, and the alternate
content-property names scanned at lines 354-361). -/
structure Tmpl where
  id : Option String := none
  name : String := ""
  source : Option String := none
  content : Option String := none
  html : Option String := none
  body : Option String := none
  htmlContent : Option String := none
  htmlBody : Option String := none
  design : Option String := none
  template : Option String := none
deriving DecidableEq, Repr

/-- Output of `convertHubspotTemplate` as consumed by the route
(`content`, `channels`, `slots`). -/
structure Converted where
  content : String := ""
  channels : List String := []
  slots : List String := []
deriving DecidableEq, Repr

/-- Result of `createEmailTemplate` as consumed by the route. -/
structure AssetRes where
  id : Nat := 0
  customerKey : String := ""
deriving DecidableEq, Repr

/-- One entry of the `migrated` array (`hubspotId`/`customId` is `srcId`). -/
structure MigEntry where
  srcId : Option String := none
  srcName : String := ""
  sfmcId : Nat := 0
  sfmcCustomerKey : String := ""
  status : String := "success"
deriving DecidableEq, Repr

/-- One entry of the `errors` array. -/
structure ErrEntry where
  eid : Option String := none
  ename : String := ""
  emsg : String := ""
  estatus : String := "error"
deriving DecidableEq, Repr

/-- Arguments of one `createEmailTemplate` call. -/
structure CreateCall where
  name : String := ""
  content : String := ""
  folderId : Nat := 0
  channels : List String := []
  slots : List String := []
deriving DecidableEq, Repr

/-- An SFMC folder as returned by `getSFMCFolders`. -/
structure Folder where
  id : Nat := 0
  name : String := ""
  parentId : Option Nat := none
deriving DecidableEq, Repr

/-- The `sfmcCredentials` request field. -/
structure SfmcCreds where
  clientId : String := ""
  clientSecret : String := ""
  subdomain : String := ""
deriving DecidableEq, Repr

/-- The `customTemplates` request field: either a JSON array of templates or
some non-array value (for the `Array.isArray` check at line 153). -/
inductive CustomField where
  | arr (l : List Tmpl)
  | notArr
deriving DecidableEq, Repr

/-- The parsed request body destructured at line 14. -/
structure Body where
  userId : Option String := none
  hubspotToken : Option String := none
  sfmcCredentials : Option SfmcCreds := none
  limit : Option Nat := none
  folderId : Option Nat := none
  customTemplates : Option CustomField := none
deriving Repr

/-- The collaborator world one run executes against. -/
structure Env where
  hubspotStore : Except Unit (Option String)
  sfmcExchange : Except Unit String
  sfmcStore : Except Unit (Option String)
  folders : Except Unit (List Folder)
  createFolder : Except Unit Nat
  ep1 : Except String (List Tmpl)
  ep2 : Except String (List Tmpl)
  ep3 : Except String (List Tmpl)
  ep4 : Except String (List Tmpl)
  convert : Tmpl → Except String Converted
  createAsset : CreateCall → Except String AssetRes
  now : String

/-- The JSON response the handler produces: a 200 success envelope or an
error envelope with an HTTP status. -/
inductive Response where
  | success (message : String) (migrated : List MigEntry)
      (errors : Option (List ErrEntry)) (templatesCount : Nat)
      (totalAttempted : Option Nat)
  | failure (status : Nat) (error : String) (details : Option String)
deriving DecidableEq, Repr

/-- Collaborator-invocation record of one run. -/
structure Trace where
  fetchInvoked : Bool
  createCalls : List CreateCall
  folderCreates : List (String × Nat)
deriving DecidableEq, Repr

/-- Trace of a run that aborted before reaching fetch or iteration. -/
def Trace.empty : Trace := ⟨false, [], []⟩

/-- Line 24-50: resolve the HubSpot access token (inline token, else store). -/
def hubspotTokenResult (env : Env) (b : Body) : Except Response String :=
  if truthyS b.hubspotToken then Except.ok (b.hubspotToken.getD "")
  else
    match env.hubspotStore with
    | Except.error _ =>
        Except.error (Response.failure 500 "Database error retrieving HubSpot tokens." none)
    | Except.ok none =>
        Except.error (Response.failure 400 "Missing HubSpot token. Please reconnect to HubSpot." none)
    | Except.ok (some tok) => Except.ok tok

/-- Line 56: the inline SFMC credentials truthiness check. -/
def sfmcComplete (b : Body) : Bool :=
  match b.sfmcCredentials with
  | some c => c.clientId != "" && c.clientSecret != "" && c.subdomain != ""
  | none => false

/-- Line 52-94: resolve the SFMC access token (inline credentials exchanged
for a token, else store). -/
def sfmcTokenResult (env : Env) (b : Body) : Except Response String :=
  if sfmcComplete b then
    match env.sfmcExchange with
    | Except.error _ =>
        Except.error (Response.failure 400 "Failed to authenticate with SFMC using provided credentials." none)
    | Except.ok tok => Except.ok tok
  else
    match env.sfmcStore with
    | Except.error _ =>
        Except.error (Response.failure 400 "No SFMC credentials provided or found in database." none)
    | Except.ok none =>
        Except.error (Response.failure 400 "Missing SFMC credentials. Please connect SFMC." none)
    | Except.ok (some tok) => Except.ok tok

/-- Predicate for the root folder search at line 112. -/
def isContentBuilderRoot (f : Folder) : Bool := f.name == "Content Builder"

/-- Predicate for the child folder search at line 121. -/
def isHubspotChild (rootId : Nat) (f : Folder) : Bool :=
  f.name == "HubSpot Templates" && f.parentId == some rootId

/-- The single 400 response of the folder-resolution catch block (line 145). -/
def folderFailure : Response :=
  Response.failure 400 "Failed to find or create a folder in SFMC. Please provide a valid folderId." none

/-- Line 96-150: resolve the Content Builder folder id. Returns the id and the
list of `createSFMCFolder` calls made (name, parentId). -/
def folderResult (env : Env) (b : Body) : Except Response (Nat × List (String × Nat)) :=
  match b.folderId with
  | some f => Except.ok (f, [])
  | none =>
    match env.folders with
    | Except.error _ => Except.error folderFailure
    | Except.ok items =>
      match items.find? isContentBuilderRoot with
      | none => Except.error folderFailure
      | some root =>
        match items.find? (isHubspotChild root.id) with
        | some hf => Except.ok (hf.id, [])
        | none =>
          match env.createFolder with
          | Except.error _ => Except.error folderFailure
          | Except.ok nid => Except.ok (nid, [("HubSpot Templates", root.id)])

/-- The alternate content properties scanned at line 354, in source order. -/
def altContentProps (t : Tmpl) : List (Option String) :=
  [t.body, t.htmlContent, t.htmlBody, t.design, t.template]

/-- Line 355-361: first property that is a truthy string containing a `<`. -/
def firstHtmlProp : List (Option String) → String
  | [] => ""
  | none :: rest => firstHtmlProp rest
  | some s :: rest => if s != "" && s.contains '<' then s else firstHtmlProp rest

/-- Line 333-362: resolve the markup for one fetched template
(`source` → `content` → `html` → alternate-property scan); `""` means the
template has no identifiable content and is skipped at line 364-368. -/
def resolveMarkup (t : Tmpl) : String :=
  if truthyS t.source then t.source.getD ""
  else if truthyS t.content then t.content.getD ""
  else if truthyS t.html then t.html.getD ""
  else firstHtmlProp (altContentProps t)

/-- Spec section 4.4, restated in the spec's own shape: an ordered list of
extractors, the first match winning (`source` → `content` → `html`, then the
heuristic scan). Written from the spec's words to compare with
`resolveMarkup`, which is written from the code. -/
def firstTruthy : List (Option String) → Option String
  | [] => none
  | o :: rest => if truthyS o then o else firstTruthy rest

/-- Spec section 4.4's resolution order, as a definition of its own. -/
def specResolveMarkup (t : Tmpl) : String :=
  match firstTruthy [t.source, t.content, t.html] with
  | some s => s
  | none => firstHtmlProp (altContentProps t)

/-- Line 166-169: `{...template, source: markup}`. -/
def withSource (t : Tmpl) (s : String) : Tmpl := { t with source := some s }

/-- Line 172-185 / 377-390: the arguments of one `createEmailTemplate` call. -/
def mkCall (t : Tmpl) (conv : Converted) (fid : Nat) : CreateCall :=
  { name := t.name, content := conv.content, folderId := fid,
    channels := conv.channels, slots := conv.slots }

/-- What one loop iteration did to the accumulators. -/
inductive ItemOutcome where
  | skipped
  | migrated (m : MigEntry) (c : CreateCall)
  | failed (e : ErrEntry) (c : Option CreateCall)
deriving DecidableEq, Repr

/-- The `createEmailTemplate` calls an outcome performed. -/
def ItemOutcome.calls : ItemOutcome → List CreateCall
  | ItemOutcome.skipped => []
  | ItemOutcome.migrated _ c => [c]
  | ItemOutcome.failed _ c => c.toList

/-- Line 329-410: one iteration of the fetch-mode loop. Skips when no markup
resolves; otherwise converts, creates, and records success or the caught
error (`hubspotId`, `hubspotName`, message, status `error`). -/
def fetchedOutcome (env : Env) (fid : Nat) (t : Tmpl) : ItemOutcome :=
  if resolveMarkup t = "" then ItemOutcome.skipped
  else
    match env.convert (withSource t (resolveMarkup t)) with
    | Except.error msg =>
        ItemOutcome.failed { eid := t.id, ename := t.name, emsg := msg, estatus := "error" } none
    | Except.ok conv =>
      match env.createAsset (mkCall t conv fid) with
      | Except.error msg =>
          ItemOutcome.failed { eid := t.id, ename := t.name, emsg := msg, estatus := "error" }
            (some (mkCall t conv fid))
      | Except.ok r =>
          ItemOutcome.migrated
            { srcId := t.id, srcName := t.name, sfmcId := r.id,
              sfmcCustomerKey := r.customerKey, status := "success" }
            (mkCall t conv fid)

/-- Line 168: `template.content || template.html || placeholder`. -/
def customMarkup (t : Tmpl) : String :=
  (orS t.content (orS t.html (some ("<p>Template: " ++ t.name ++ "</p>")))).getD ""

/-- Line 188/199: `template.id || custom-timestamp`. -/
def customId (env : Env) (t : Tmpl) : String :=
  (orS t.id (some ("custom-" ++ env.now))).getD ""

/-- Line 161-205: one iteration of the custom-mode loop (never skips). -/
def customOutcome (env : Env) (fid : Nat) (t : Tmpl) : ItemOutcome :=
  match env.convert (withSource t (customMarkup t)) with
  | Except.error msg =>
      ItemOutcome.failed
        { eid := some (customId env t), ename := t.name, emsg := msg, estatus := "error" } none
  | Except.ok conv =>
    match env.createAsset (mkCall t conv fid) with
    | Except.error msg =>
        ItemOutcome.failed
          { eid := some (customId env t), ename := t.name, emsg := msg, estatus := "error" }
          (some (mkCall t conv fid))
    | Except.ok r =>
        ItemOutcome.migrated
          { srcId := some (customId env t), srcName := t.name, sfmcId := r.id,
            sfmcCustomerKey := r.customerKey, status := "success" }
          (mkCall t conv fid)

/-- The iteration loop: accumulates `migrated`, `errors` and the asset-create
calls, in template order. -/
def processItems (step : Tmpl → ItemOutcome) :
    List Tmpl → List MigEntry × List ErrEntry × List CreateCall
  | [] => ([], [], [])
  | t :: rest =>
    let acc := processItems step rest
    match step t with
    | ItemOutcome.skipped => acc
    | ItemOutcome.migrated m c => (m :: acc.1, acc.2.1, c :: acc.2.2)
    | ItemOutcome.failed e c => (acc.1, e :: acc.2.1, c.toList ++ acc.2.2)

/-- Line 153: `customTemplates && Array.isArray(customTemplates) && length > 0`. -/
def customList (b : Body) : List Tmpl :=
  match b.customTemplates with
  | some (CustomField.arr l) => l
  | _ => []

/-- Whether the run takes the custom-mode branch at line 153. -/
def isCustomMode (b : Body) : Bool := !(customList b).isEmpty

/-- Line 225-285: the four-endpoint fallback chain. Endpoint 4 has no inner
catch of its own, so its error propagates to the handler at line 286. -/
def fetchChain (env : Env) : Except String (List Tmpl) :=
  match env.ep1 with
  | Except.ok l => Except.ok l
  | Except.error _ =>
    match env.ep2 with
    | Except.ok l => Except.ok l
    | Except.error _ =>
      match env.ep3 with
      | Except.ok l => Except.ok l
      | Except.error _ => env.ep4

/-- Spec section 4.3, restated in the spec's own shape: an ordered list of
attempts, first success wins, the last attempt's error surfaces. Written from
the spec's words to compare with `fetchChain`, which is written from the code. -/
def firstOkOrLast : List (Except String (List Tmpl)) → Except String (List Tmpl)
  | [] => Except.error ""
  | [x] => x
  | x :: y :: rest =>
    match x with
    | Except.ok l => Except.ok l
    | Except.error _ => firstOkOrLast (y :: rest)

/-- The error message of the total-fetch-failure 500 (line 297). -/
def fetchFailureMsg : String :=
  "Failed to fetch templates from HubSpot API. Please check your token and permissions."

/-- Line 14: `limit = 10` default. -/
def limitVal (b : Body) : Nat := b.limit.getD 10

/-- Line 212/417: `errors.length > 0 ? errors : undefined`. -/
def optErrs (es : List ErrEntry) : Option (List ErrEntry) :=
  if es.isEmpty then none else some es

/-- The custom-mode success message (line 210). -/
def customMsg (nOk nErr : Nat) : String :=
  "Migrated " ++ toString nOk ++ " custom templates successfully" ++
    (if 0 < nErr then ", with " ++ toString nErr ++ " errors" else "")

/-- The fetch-mode success message (line 415). -/
def fetchMsg (nOk nErr : Nat) : String :=
  "Migrated " ++ toString nOk ++ " templates successfully" ++
    (if 0 < nErr then ", with " ++ toString nErr ++ " errors" else "")

/-- The whole `POST` handler as a pure function of the collaborator world and
the parsed body, returning the JSON response and the invocation trace. -/
def post (env : Env) (b : Body) : Response × Trace :=
  if truthyS b.userId then
    match hubspotTokenResult env b with
    | Except.error r => (r, Trace.empty)
    | Except.ok _ =>
      match sfmcTokenResult env b with
      | Except.error r => (r, Trace.empty)
      | Except.ok _ =>
        match folderResult env b with
        | Except.error r => (r, Trace.empty)
        | Except.ok (fid, fcs) =>
          if isCustomMode b then
            let pr := processItems (customOutcome env fid) (customList b)
            (Response.success (customMsg pr.1.length pr.2.1.length) pr.1
               (optErrs pr.2.1) pr.1.length (some (customList b).length),
             { fetchInvoked := false, createCalls := pr.2.2, folderCreates := fcs })
          else
            match fetchChain env with
            | Except.error e =>
              (Response.failure 500 fetchFailureMsg (some e),
               { fetchInvoked := true, createCalls := [], folderCreates := fcs })
            | Except.ok l =>
              if l.isEmpty then
                (Response.success "No email templates found in HubSpot" [] none 0 none,
                 { fetchInvoked := true, createCalls := [], folderCreates := fcs })
              else
                let pr := processItems (fetchedOutcome env fid) (l.take (limitVal b))
                (Response.success (fetchMsg pr.1.length pr.2.1.length) pr.1
                   (optErrs pr.2.1) pr.1.length (some (l.take (limitVal b)).length),
                 { fetchInvoked := true, createCalls := pr.2.2, folderCreates := fcs })
  else
    (Response.failure 400 "User ID is required" none, Trace.empty)

/-- HTTP status of a response (200 on the success envelope). -/
def statusOf : Response → Nat
  | Response.success _ _ _ _ _ => 200
  | Response.failure st _ _ => st

/-- Length of the `migrated` array of a response. -/
def migratedCount : Response → Nat
  | Response.success _ m _ _ _ => m.length
  | Response.failure _ _ _ => 0

/-- Length of the `errors` array of a response (0 when omitted). -/
def errorsCount : Response → Nat
  | Response.success _ _ e _ _ => (e.getD []).length
  | Response.failure _ _ _ => 0

/-- The `templatesCount` field of a response. -/
def templatesCountOf : Response → Nat
  | Response.success _ _ _ tc _ => tc
  | Response.failure _ _ _ => 0

/-- The `totalAttempted` field of a response (absent on errors and on the
no-templates success). -/
def totalAttemptedOf : Response → Option Nat
  | Response.success _ _ _ _ ta => ta
  | Response.failure _ _ _ => none

/-- The list of templates the iteration phase attempts. -/
def attemptedList (env : Env) (b : Body) : List Tmpl :=
  if isCustomMode b then customList b
  else
    match fetchChain env with
    | Except.ok l => l.take (limitVal b)
    | Except.error _ => []

/-- How many attempted templates the run skips (no resolvable markup); custom
mode never skips. -/
def skippedCount (env : Env) (b : Body) : Nat :=
  if isCustomMode b then 0
  else (attemptedList env b).countP (fun t => resolveMarkup t == "")

/-- Whether every recorded asset-create call used the given folder id. -/
def allCallsUseFolder (cs : List CreateCall) (fid : Nat) : Bool :=
  cs.all (fun c => c.folderId == fid)

/-! ## Shared lemmas about the iteration loop -/

/-- The loop's accounting: migrated entries plus error entries plus skipped
items add up to the number of items iterated. -/
theorem processItems_length (step : Tmpl → ItemOutcome) (l : List Tmpl) :
    (processItems step l).1.length + (processItems step l).2.1.length
      + l.countP (fun t => decide (step t = ItemOutcome.skipped)) = l.length := by
  induction l with
  | nil => rfl
  | cons t rest ih =>
    cases h : step t with
    | skipped =>
      simp [processItems, h, List.countP_cons]
      omega
    | migrated m c =>
      simp [processItems, h, List.countP_cons]
      omega
    | failed e c =>
      simp [processItems, h, List.countP_cons]
      omega

/-- A fetch-mode iteration skips exactly when no markup resolves. -/
theorem fetchedOutcome_skipped_iff (env : Env) (fid : Nat) (t : Tmpl) :
    fetchedOutcome env fid t = ItemOutcome.skipped ↔ resolveMarkup t = "" := by
  unfold fetchedOutcome
  by_cases h : resolveMarkup t = ""
  · simp [h]
  · simp only [if_neg h]
    cases hc : env.convert (withSource t (resolveMarkup t)) with
    | error msg => simp [hc, h]
    | ok conv =>
      cases ha : env.createAsset (mkCall t conv fid) with
      | error msg => simp [hc, ha, h]
      | ok r => simp [hc, ha, h]

/-- A custom-mode iteration never skips. -/
theorem customOutcome_ne_skipped (env : Env) (fid : Nat) (t : Tmpl) :
    customOutcome env fid t ≠ ItemOutcome.skipped := by
  unfold customOutcome
  cases hc : env.convert (withSource t (customMarkup t)) with
  | error msg => simp [hc]
  | ok conv =>
    cases ha : env.createAsset (mkCall t conv fid) with
    | error msg => simp [hc, ha]
    | ok r => simp [hc, ha]

/-- The `errors.length > 0 ? errors : undefined` encoding round-trips. -/
theorem optErrs_getD (es : List ErrEntry) : (optErrs es).getD [] = es := by
  unfold optErrs
  by_cases h : es.isEmpty
  · simp [h, List.isEmpty_iff.mp h]
  · simp [h]

/-- Every asset-create call a fetch-mode iteration performs targets `fid`. -/
theorem fetchedOutcome_folder (env : Env) (fid : Nat) (t : Tmpl) :
    ((fetchedOutcome env fid t).calls).all (fun c => c.folderId == fid) = true := by
  unfold fetchedOutcome
  by_cases h : resolveMarkup t = ""
  · simp [h, ItemOutcome.calls]
  · simp only [if_neg h]
    cases hc : env.convert (withSource t (resolveMarkup t)) with
    | error msg => simp [hc, ItemOutcome.calls]
    | ok conv =>
      cases ha : env.createAsset (mkCall t conv fid) with
      | error msg =>
        simp only [mkCall] at ha
        simp [hc, ha, ItemOutcome.calls, mkCall]
      | ok r =>
        simp only [mkCall] at ha
        simp [hc, ha, ItemOutcome.calls, mkCall]

/-- Every asset-create call a custom-mode iteration performs targets `fid`. -/
theorem customOutcome_folder (env : Env) (fid : Nat) (t : Tmpl) :
    ((customOutcome env fid t).calls).all (fun c => c.folderId == fid) = true := by
  unfold customOutcome
  cases hc : env.convert (withSource t (customMarkup t)) with
  | error msg => simp [hc, ItemOutcome.calls]
  | ok conv =>
    cases ha : env.createAsset (mkCall t conv fid) with
    | error msg =>
      simp only [mkCall] at ha
      simp [hc, ha, ItemOutcome.calls, mkCall]
    | ok r =>
      simp only [mkCall] at ha
      simp [hc, ha, ItemOutcome.calls, mkCall]

/-- If each iteration's calls target `fid`, so do all calls of the loop. -/
theorem processItems_folder (step : Tmpl → ItemOutcome) (fid : Nat)
    (hstep : ∀ t, ((step t).calls).all (fun c => c.folderId == fid) = true)
    (l : List Tmpl) :
    allCallsUseFolder (processItems step l).2.2 fid = true := by
  induction l with
  | nil => rfl
  | cons t rest ih =>
    have ht := hstep t
    cases h : step t with
    | skipped => simpa [processItems, h] using ih
    | migrated m c =>
      rw [h] at ht
      simp only [ItemOutcome.calls, List.all_cons, List.all_nil, Bool.and_true] at ht
      simp only [processItems, h, allCallsUseFolder, List.all_cons, ht, Bool.true_and]
      simpa [allCallsUseFolder] using ih
    | failed e c =>
      rw [h] at ht
      simp only [ItemOutcome.calls] at ht
      simp only [processItems, h, allCallsUseFolder, List.all_append]
      rw [Bool.and_eq_true]
      exact ⟨ht, by simpa [allCallsUseFolder] using ih⟩

/-- Skips of the fetch-mode loop are exactly the templates with no markup. -/
theorem countP_skipped_fetched (env : Env) (fid : Nat) (l : List Tmpl) :
    l.countP (fun t => decide (fetchedOutcome env fid t = ItemOutcome.skipped))
      = l.countP (fun t => resolveMarkup t == "") := by
  apply List.countP_congr
  intro t _
  by_cases h : resolveMarkup t = ""
  · simp [fetchedOutcome_skipped_iff, h]
  · simp [fetchedOutcome_skipped_iff, h]

/-- The custom-mode loop never skips. -/
theorem countP_skipped_custom (env : Env) (fid : Nat) (l : List Tmpl) :
    l.countP (fun t => decide (customOutcome env fid t = ItemOutcome.skipped)) = 0 := by
  rw [List.countP_eq_zero]
  intro t _
  simp [customOutcome_ne_skipped env fid t]

/-- Whatever folder id the run resolved is the one every recorded asset-create
call targets, on every control path. -/
theorem post_folder (env : Env) (b : Body) (fid : Nat) (fcs : List (String × Nat))
    (hf : folderResult env b = Except.ok (fid, fcs)) :
    allCallsUseFolder (post env b).2.createCalls fid = true := by
  unfold post
  by_cases hu : truthyS b.userId
  · simp only [hu, if_true]
    cases hh : hubspotTokenResult env b with
    | error r => rfl
    | ok tok =>
      cases hs : sfmcTokenResult env b with
      | error r => rfl
      | ok sf =>
        rw [hf]
        by_cases hc : isCustomMode b
        · simp only [hc, if_true]
          exact processItems_folder _ fid (customOutcome_folder env fid) _
        · simp only [hc, if_false, Bool.false_eq_true]
          cases hfc : fetchChain env with
          | error e => rfl
          | ok l =>
            by_cases he : l.isEmpty
            · simp only [he, if_true]
              rfl
            · simp only [he, if_false, Bool.false_eq_true]
              exact processItems_folder _ fid (fetchedOutcome_folder env fid) _
  · simp only [hu, Bool.false_eq_true, if_false]
    rfl

/-- A failed HubSpot token resolution yields an error envelope (no summary). -/
theorem hubspot_error_shape (env : Env) (b : Body) (r : Response)
    (h : hubspotTokenResult env b = Except.error r) : totalAttemptedOf r = none := by
  unfold hubspotTokenResult at h
  by_cases ht : truthyS b.hubspotToken
  · simp [ht] at h
  · simp only [ht, Bool.false_eq_true, if_false] at h
    cases hs : env.hubspotStore with
    | error u =>
      rw [hs] at h
      simp only [Except.error.injEq] at h
      subst h; rfl
    | ok o =>
      cases o with
      | none =>
        rw [hs] at h
        simp only [Except.error.injEq] at h
        subst h; rfl
      | some tok => rw [hs] at h; simp at h

/-- A failed SFMC token resolution yields an error envelope (no summary). -/
theorem sfmc_error_shape (env : Env) (b : Body) (r : Response)
    (h : sfmcTokenResult env b = Except.error r) : totalAttemptedOf r = none := by
  unfold sfmcTokenResult at h
  by_cases hcred : sfmcComplete b
  · simp only [hcred, if_true] at h
    cases hx : env.sfmcExchange with
    | error u =>
      rw [hx] at h
      simp only [Except.error.injEq] at h
      subst h; rfl
    | ok tok => rw [hx] at h; simp at h
  · simp only [hcred, Bool.false_eq_true, if_false] at h
    cases hs : env.sfmcStore with
    | error u =>
      rw [hs] at h
      simp only [Except.error.injEq] at h
      subst h; rfl
    | ok o =>
      cases o with
      | none =>
        rw [hs] at h
        simp only [Except.error.injEq] at h
        subst h; rfl
      | some tok => rw [hs] at h; simp at h

/-- A failed folder resolution yields the 400 folder error (no summary). -/
theorem folder_error_shape (env : Env) (b : Body) (r : Response)
    (h : folderResult env b = Except.error r) : r = folderFailure := by
  unfold folderResult at h
  cases hfi : b.folderId with
  | some f => simp [hfi] at h
  | none =>
    simp only [hfi] at h
    cases hfo : env.folders with
    | error u => simp only [hfo, Except.error.injEq] at h; exact h.symm
    | ok items =>
      simp only [hfo] at h
      cases hroot : items.find? isContentBuilderRoot with
      | none => simp only [hroot, Except.error.injEq] at h; exact h.symm
      | some root =>
        simp only [hroot] at h
        cases hchild : items.find? (isHubspotChild root.id) with
        | some hf => simp [hchild] at h
        | none =>
          simp only [hchild] at h
          cases hcf : env.createFolder with
          | error u => simp only [hcf, Except.error.injEq] at h; exact h.symm
          | ok nid => simp [hcf] at h

/-! ## C1 — response count invariants -/

/-- Claim C1 (amended): for every run whose response carries a
`totalAttempted` field (that is, every run that reached the iteration phase),
`templatesCount` equals `migrated.length`, and `migrated.length` plus
`errors.length` plus the number of skipped templates equals `totalAttempted`;
custom mode never skips, so there the original two equations hold. -/
theorem c1_counts_amended (env : Env) (b : Body) (ta : Nat)
    (h : totalAttemptedOf (post env b).1 = some ta) :
    templatesCountOf (post env b).1 = migratedCount (post env b).1 ∧
    migratedCount (post env b).1 + errorsCount (post env b).1 + skippedCount env b = ta := by
  by_cases hu : truthyS b.userId
  · cases hh : hubspotTokenResult env b with
    | error r =>
      simp only [post, hu, if_true, hh] at h
      rw [hubspot_error_shape env b r hh] at h
      exact Option.noConfusion h
    | ok tok =>
      cases hs : sfmcTokenResult env b with
      | error r =>
        simp only [post, hu, if_true, hh, hs] at h
        rw [sfmc_error_shape env b r hs] at h
        exact Option.noConfusion h
      | ok sf =>
        cases hf : folderResult env b with
        | error r =>
          simp only [post, hu, if_true, hh, hs, hf] at h
          rw [folder_error_shape env b r hf] at h
          exact Option.noConfusion h
        | ok pfc =>
          obtain ⟨fid, fcs⟩ := pfc
          by_cases hc : isCustomMode b
          · simp only [post, hu, if_true, hh, hs, hf, hc, totalAttemptedOf,
              Option.some.injEq] at h
            simp only [post, hu, if_true, hh, hs, hf, hc, templatesCountOf,
              migratedCount, errorsCount, optErrs_getD, skippedCount]
            refine ⟨by trivial, ?_⟩
            have L := processItems_length (customOutcome env fid) (customList b)
            have Z := countP_skipped_custom env fid (customList b)
            omega
          · cases hfc : fetchChain env with
            | error e =>
              simp only [post, hu, if_true, hh, hs, hf, hc, Bool.false_eq_true,
                if_false, hfc, totalAttemptedOf] at h
              exact Option.noConfusion h
            | ok l =>
              by_cases he : l.isEmpty
              · simp only [post, hu, if_true, hh, hs, hf, hc, Bool.false_eq_true,
                  if_false, hfc, he, if_true, totalAttemptedOf] at h
                exact Option.noConfusion h
              · simp only [post, hu, if_true, hh, hs, hf, hc, Bool.false_eq_true,
                  if_false, hfc, he, totalAttemptedOf, Option.some.injEq] at h
                simp only [post, hu, if_true, hh, hs, hf, hc, Bool.false_eq_true,
                  if_false, hfc, he, templatesCountOf, migratedCount, errorsCount,
                  optErrs_getD, skippedCount, attemptedList]
                refine ⟨by trivial, ?_⟩
                have L := processItems_length (fetchedOutcome env fid) (l.take (limitVal b))
                have Z := countP_skipped_fetched env fid (l.take (limitVal b))
                omega
  · simp only [post, hu, Bool.false_eq_true, if_false, totalAttemptedOf] at h
    exact Option.noConfusion h

/-! ## Concrete worlds used by witnesses and counterexamples -/

/-- Inline SFMC credentials with all three sub-fields non-empty. -/
def credsW : SfmcCreds := { clientId := "ci", clientSecret := "cs", subdomain := "sd" }

/-- A benign collaborator world: stores populated, token exchange succeeds,
conversion echoes the resolved source, asset creation succeeds. -/
def envBase : Env :=
  { hubspotStore := Except.ok (some "hs-token"),
    sfmcExchange := Except.ok "sfmc-token",
    sfmcStore := Except.ok (some "sfmc-stored"),
    folders := Except.ok [],
    createFolder := Except.ok 77,
    ep1 := Except.ok [],
    ep2 := Except.error "e2",
    ep3 := Except.error "e3",
    ep4 := Except.error "e4",
    convert := fun t => Except.ok { content := t.source.getD "", channels := [], slots := [] },
    createAsset := fun _ => Except.ok { id := 9, customerKey := "ck" },
    now := "1700000000000" }

/-- A request body that authenticates inline and pins the folder id. -/
def bodyBase : Body :=
  { userId := some "u", hubspotToken := some "ht", sfmcCredentials := some credsW,
    limit := none, folderId := some 5, customTemplates := none }

/-- A template none of whose content fields is set. -/
def tmplNoContent : Tmpl := { id := some "t1", name := "Empty" }

/-- Fetch mode returns exactly one template with no resolvable markup. -/
def envC1 : Env := { envBase with ep1 := Except.ok [tmplNoContent] }

/-- Claim C1 (counterexample): a fetch-mode run whose single attempted
template has no resolvable markup reaches the iteration phase
(`totalAttempted = 1`) yet the template contributes to neither `migrated` nor
`errors`, so `migrated.length + errors.length = 0 ≠ 1 = totalAttempted`. -/
theorem c1_counts_counterexample :
    totalAttemptedOf (post envC1 bodyBase).1 = some 1 ∧
    migratedCount (post envC1 bodyBase).1 = 0 ∧
    errorsCount (post envC1 bodyBase).1 = 0 := by
  refine ⟨rfl, rfl, rfl⟩

/-- One custom template with markup (the spec's end-to-end example). -/
def tmplPromo : Tmpl := { name := "Promo", content := some "<p>hi</p>" }

/-- A custom-mode body carrying exactly one template. -/
def bodyCustomPromo : Body := { bodyBase with customTemplates := some (CustomField.arr [tmplPromo]) }

/-- Witness for `c1_counts_amended` at a concrete custom-mode run. -/
theorem c1_counts_amended_witness :
    totalAttemptedOf (post envBase bodyCustomPromo).1 = some 1 ∧
    (templatesCountOf (post envBase bodyCustomPromo).1 = migratedCount (post envBase bodyCustomPromo).1 ∧
     migratedCount (post envBase bodyCustomPromo).1 + errorsCount (post envBase bodyCustomPromo).1 +
       skippedCount envBase bodyCustomPromo = 1) :=
  ⟨rfl, c1_counts_amended envBase bodyCustomPromo 1 rfl⟩

/-! ## C2 — endpoint fallback -/

/-- The code's nested try/catch chain equals the spec's ordered-attempt model:
first success wins, and on total failure the last attempt's error surfaces. -/
theorem fetchChain_eq_spec (env : Env) :
    fetchChain env = firstOkOrLast [env.ep1, env.ep2, env.ep3, env.ep4] := by
  cases h1 : env.ep1 <;> cases h2 : env.ep2 <;> cases h3 : env.ep3 <;>
    simp [fetchChain, firstOkOrLast, h1, h2, h3]

/-- Claim C2: the source fetch tries the four endpoints in a fixed order,
moving on whenever one fails; when all four fail the run returns HTTP 500 and
the surfaced detail is the fourth endpoint's error, not an earlier one's. -/
theorem c2_endpoint_fallback (env : Env) (b : Body) (tok sf : String)
    (fid : Nat) (fcs : List (String × Nat)) (e1 e2 e3 e4 : String)
    (hu : truthyS b.userId = true)
    (hh : hubspotTokenResult env b = Except.ok tok)
    (hs : sfmcTokenResult env b = Except.ok sf)
    (hf : folderResult env b = Except.ok (fid, fcs))
    (hc : isCustomMode b = false)
    (h1 : env.ep1 = Except.error e1) (h2 : env.ep2 = Except.error e2)
    (h3 : env.ep3 = Except.error e3) (h4 : env.ep4 = Except.error e4) :
    fetchChain env = firstOkOrLast [env.ep1, env.ep2, env.ep3, env.ep4] ∧
    fetchChain env = Except.error e4 ∧
    (post env b).1 = Response.failure 500 fetchFailureMsg (some e4) ∧
    (post env b).2.fetchInvoked = true := by
  have hfc : fetchChain env = Except.error e4 := by
    simp [fetchChain, h1, h2, h3, h4]
  refine ⟨fetchChain_eq_spec env, hfc, ?_, ?_⟩
  · simp only [post, hu, if_true, hh, hs, hf, hc, Bool.false_eq_true, if_false, hfc]
  · simp only [post, hu, if_true, hh, hs, hf, hc, Bool.false_eq_true, if_false, hfc]

/-- All four endpoints fail in this world. -/
def envC2 : Env := { envBase with ep1 := Except.error "e1" }

/-- Witness for `c2_endpoint_fallback` at a concrete all-fail run. -/
theorem c2_endpoint_fallback_witness :
    (truthyS bodyBase.userId = true ∧ isCustomMode bodyBase = false ∧
     envC2.ep4 = Except.error "e4") ∧
    (fetchChain envC2 = firstOkOrLast [envC2.ep1, envC2.ep2, envC2.ep3, envC2.ep4] ∧
     fetchChain envC2 = Except.error "e4" ∧
     (post envC2 bodyBase).1 = Response.failure 500 fetchFailureMsg (some "e4") ∧
     (post envC2 bodyBase).2.fetchInvoked = true) :=
  ⟨⟨rfl, rfl, rfl⟩,
   c2_endpoint_fallback envC2 bodyBase "ht" "sfmc-token" 5 [] "e1" "e2" "e3" "e4"
     rfl rfl rfl rfl rfl rfl rfl rfl rfl⟩

/-! ## C3 — markup field resolution -/

/-- The code's if/else chain equals the spec's ordered-extractor model of
markup resolution. -/
theorem resolveMarkup_eq_spec (t : Tmpl) : resolveMarkup t = specResolveMarkup t := by
  unfold resolveMarkup specResolveMarkup
  by_cases h1 : truthyS t.source
  · cases hsrc : t.source with
    | none => rw [hsrc] at h1; simp [truthyS] at h1
    | some s => rw [hsrc] at h1; simp [firstTruthy, h1, hsrc]
  · by_cases h2 : truthyS t.content
    · cases hcon : t.content with
      | none => rw [hcon] at h2; simp [truthyS] at h2
      | some s => rw [hcon] at h2; simp [firstTruthy, h1, h2, hcon]
    · by_cases h3 : truthyS t.html
      · cases hht : t.html with
        | none => rw [hht] at h3; simp [truthyS] at h3
        | some s => rw [hht] at h3; simp [firstTruthy, h1, h2, h3, hht]
      · simp [firstTruthy, h1, h2, h3]

/-- Claim C3: markup is resolved by the fixed priority order
(`source` → `content` → `html` → first alternate candidate whose string value
contains `<`); with both `content` and `html` set, `content` wins; a template
resolving no markup is skipped and contributes no entry at all. -/
theorem c3_markup_resolution (env : Env) (fid : Nat) (t t0 : Tmpl)
    (rest : List Tmpl) (s1 s2 : String)
    (hs1 : s1 ≠ "") (h0 : resolveMarkup t0 = "") :
    resolveMarkup t = specResolveMarkup t ∧
    resolveMarkup { t with source := none, content := some s1, html := some s2 } = s1 ∧
    fetchedOutcome env fid t0 = ItemOutcome.skipped ∧
    processItems (fetchedOutcome env fid) (t0 :: rest) =
      processItems (fetchedOutcome env fid) rest := by
  refine ⟨resolveMarkup_eq_spec t, ?_, (fetchedOutcome_skipped_iff env fid t0).mpr h0, ?_⟩
  · simp [resolveMarkup, truthyS, hs1]
  · simp only [processItems, (fetchedOutcome_skipped_iff env fid t0).mpr h0]

/-- A template with both `content` and `html` set. -/
def tmplBoth : Tmpl := { name := "Both", content := some "<c>", html := some "<h>" }

/-- Witness for `c3_markup_resolution` at concrete templates. -/
theorem c3_markup_resolution_witness :
    (("<c>" : String) ≠ "" ∧ resolveMarkup tmplNoContent = "") ∧
    (resolveMarkup tmplBoth = specResolveMarkup tmplBoth ∧
     resolveMarkup { tmplBoth with source := none, content := some "<c>", html := some "<h>" } = "<c>" ∧
     fetchedOutcome envBase 5 tmplNoContent = ItemOutcome.skipped ∧
     processItems (fetchedOutcome envBase 5) (tmplNoContent :: []) =
       processItems (fetchedOutcome envBase 5) []) :=
  ⟨⟨by decide, rfl⟩,
   c3_markup_resolution envBase 5 tmplBoth tmplNoContent [] "<c>" "<h>" (by decide) rfl⟩

/-! ## C4 — per-item failure isolation -/

/-- Claim C4: in both iteration modes, an item whose conversion or asset
creation throws yields exactly one error entry (template id, name, message,
status `error`) and the remaining items' results are untouched — the loop
continues and nothing later is suppressed. -/
theorem c4_item_isolation (env : Env) (fid : Nat) (t1 t2 t3 t4 : Tmpl)
    (rest : List Tmpl) (conv2 conv4 : Converted) (m1 m2 m3 m4 : String)
    (hm1 : resolveMarkup t1 ≠ "")
    (hcv1 : env.convert (withSource t1 (resolveMarkup t1)) = Except.error m1)
    (hm2 : resolveMarkup t2 ≠ "")
    (hcv2 : env.convert (withSource t2 (resolveMarkup t2)) = Except.ok conv2)
    (hca2 : env.createAsset (mkCall t2 conv2 fid) = Except.error m2)
    (hcv3 : env.convert (withSource t3 (customMarkup t3)) = Except.error m3)
    (hcv4 : env.convert (withSource t4 (customMarkup t4)) = Except.ok conv4)
    (hca4 : env.createAsset (mkCall t4 conv4 fid) = Except.error m4) :
    processItems (fetchedOutcome env fid) (t1 :: rest) =
      ((processItems (fetchedOutcome env fid) rest).1,
       { eid := t1.id, ename := t1.name, emsg := m1, estatus := "error" } ::
         (processItems (fetchedOutcome env fid) rest).2.1,
       (processItems (fetchedOutcome env fid) rest).2.2) ∧
    processItems (fetchedOutcome env fid) (t2 :: rest) =
      ((processItems (fetchedOutcome env fid) rest).1,
       { eid := t2.id, ename := t2.name, emsg := m2, estatus := "error" } ::
         (processItems (fetchedOutcome env fid) rest).2.1,
       mkCall t2 conv2 fid :: (processItems (fetchedOutcome env fid) rest).2.2) ∧
    processItems (customOutcome env fid) (t3 :: rest) =
      ((processItems (customOutcome env fid) rest).1,
       { eid := some (customId env t3), ename := t3.name, emsg := m3, estatus := "error" } ::
         (processItems (customOutcome env fid) rest).2.1,
       (processItems (customOutcome env fid) rest).2.2) ∧
    processItems (customOutcome env fid) (t4 :: rest) =
      ((processItems (customOutcome env fid) rest).1,
       { eid := some (customId env t4), ename := t4.name, emsg := m4, estatus := "error" } ::
         (processItems (customOutcome env fid) rest).2.1,
       mkCall t4 conv4 fid :: (processItems (customOutcome env fid) rest).2.2) := by
  have o1 : fetchedOutcome env fid t1 =
      ItemOutcome.failed { eid := t1.id, ename := t1.name, emsg := m1, estatus := "error" } none := by
    unfold fetchedOutcome
    simp only [if_neg hm1, hcv1]
  have o2 : fetchedOutcome env fid t2 =
      ItemOutcome.failed { eid := t2.id, ename := t2.name, emsg := m2, estatus := "error" }
        (some (mkCall t2 conv2 fid)) := by
    unfold fetchedOutcome
    simp only [if_neg hm2, hcv2, hca2]
  have o3 : customOutcome env fid t3 =
      ItemOutcome.failed
        { eid := some (customId env t3), ename := t3.name, emsg := m3, estatus := "error" } none := by
    unfold customOutcome
    simp only [hcv3]
  have o4 : customOutcome env fid t4 =
      ItemOutcome.failed
        { eid := some (customId env t4), ename := t4.name, emsg := m4, estatus := "error" }
        (some (mkCall t4 conv4 fid)) := by
    unfold customOutcome
    simp only [hcv4, hca4]
  refine ⟨?_, ?_, ?_, ?_⟩ <;> simp [processItems, o1, o2, o3, o4]

/-- Fetch-shaped template whose conversion will fail. -/
def tmplA : Tmpl := { name := "A", content := some "<a>" }

/-- Fetch-shaped template whose asset creation will fail. -/
def tmplB : Tmpl := { name := "B", content := some "<b>" }

/-- Custom-shaped template whose conversion will fail. -/
def tmplA0 : Tmpl := { name := "A" }

/-- Custom-shaped template whose asset creation will fail. -/
def tmplB0 : Tmpl := { name := "B" }

/-- Conversion fails on templates named `A`; asset creation always fails. -/
def envC4 : Env :=
  { envBase with
    convert := fun t =>
      if t.name == "A" then Except.error "cv"
      else Except.ok { content := t.source.getD "", channels := [], slots := [] },
    createAsset := fun _ => Except.error "cr" }

/-- The conversion of `tmplB` under `envC4`. -/
def convB : Converted := { content := "<b>", channels := [], slots := [] }

/-- The conversion of `tmplB0` under `envC4`. -/
def convB0 : Converted := { content := "<p>Template: B</p>", channels := [], slots := [] }

/-- Witness for `c4_item_isolation` at concrete failing items. -/
theorem c4_item_isolation_witness :
    (resolveMarkup tmplA ≠ "" ∧
     envC4.convert (withSource tmplA (resolveMarkup tmplA)) = Except.error "cv" ∧
     resolveMarkup tmplB ≠ "" ∧
     envC4.convert (withSource tmplB (resolveMarkup tmplB)) = Except.ok convB ∧
     envC4.createAsset (mkCall tmplB convB 5) = Except.error "cr" ∧
     envC4.convert (withSource tmplA0 (customMarkup tmplA0)) = Except.error "cv" ∧
     envC4.convert (withSource tmplB0 (customMarkup tmplB0)) = Except.ok convB0 ∧
     envC4.createAsset (mkCall tmplB0 convB0 5) = Except.error "cr") ∧
    (processItems (fetchedOutcome envC4 5) [tmplA] =
       ([], [{ eid := none, ename := "A", emsg := "cv", estatus := "error" }], []) ∧
     processItems (fetchedOutcome envC4 5) [tmplB] =
       ([], [{ eid := none, ename := "B", emsg := "cr", estatus := "error" }],
        [{ name := "B", content := "<b>", folderId := 5, channels := [], slots := [] }]) ∧
     processItems (customOutcome envC4 5) [tmplA0] =
       ([], [{ eid := some "custom-1700000000000", ename := "A", emsg := "cv", estatus := "error" }], []) ∧
     processItems (customOutcome envC4 5) [tmplB0] =
       ([], [{ eid := some "custom-1700000000000", ename := "B", emsg := "cr", estatus := "error" }],
        [{ name := "B", content := "<p>Template: B</p>", folderId := 5, channels := [], slots := [] }])) :=
  ⟨⟨by decide, rfl, by decide, rfl, rfl, rfl, rfl, rfl⟩,
   c4_item_isolation envC4 5 tmplA tmplB tmplA0 tmplB0 [] convB convB0 "cv" "cr" "cv" "cr"
     (by decide) rfl (by decide) rfl rfl rfl rfl rfl⟩

/-! ## C5 — custom mode skips the fetch -/

/-- Claim C5: when the request supplies a non-empty `customTemplates` array,
the source fetch endpoints are never invoked; the run converts and creates
exactly the supplied items and reports `totalAttempted` equal to the supplied
array's length. -/
theorem c5_custom_skips_fetch (env : Env) (b : Body) (tok sf : String)
    (fid : Nat) (fcs : List (String × Nat)) (l : List Tmpl)
    (hu : truthyS b.userId = true)
    (hh : hubspotTokenResult env b = Except.ok tok)
    (hs : sfmcTokenResult env b = Except.ok sf)
    (hf : folderResult env b = Except.ok (fid, fcs))
    (hct : b.customTemplates = some (CustomField.arr l))
    (hne : l ≠ []) :
    (post env b).2.fetchInvoked = false ∧
    (post env b).2.createCalls = (processItems (customOutcome env fid) l).2.2 ∧
    totalAttemptedOf (post env b).1 = some l.length := by
  have hcl : customList b = l := by simp [customList, hct]
  have hc : isCustomMode b = true := by
    cases l with
    | nil => exact absurd rfl hne
    | cons t ts => simp [isCustomMode, hcl]
  simp only [post, hu, if_true, hh, hs, hf, hc, if_true, hcl, totalAttemptedOf]
  exact ⟨by trivial, by trivial, by trivial⟩

/-- Witness for `c5_custom_skips_fetch` at a concrete one-item custom run. -/
theorem c5_custom_skips_fetch_witness :
    (truthyS bodyCustomPromo.userId = true ∧
     bodyCustomPromo.customTemplates = some (CustomField.arr [tmplPromo])) ∧
    ((post envBase bodyCustomPromo).2.fetchInvoked = false ∧
     (post envBase bodyCustomPromo).2.createCalls =
       (processItems (customOutcome envBase 5) [tmplPromo]).2.2 ∧
     totalAttemptedOf (post envBase bodyCustomPromo).1 = some 1) :=
  ⟨⟨rfl, rfl⟩,
   c5_custom_skips_fetch envBase bodyCustomPromo "ht" "sfmc-token" 5 [] [tmplPromo]
     rfl rfl rfl rfl rfl (by decide)⟩

/-! ## C6 — folder resolution -/

/-- Claim C6: without a `folderId` the run lists destination folders and needs
one named exactly `Content Builder` (absence aborts the run with the 400
folder error); it reuses an existing `HubSpot Templates` child of that root or
creates one under the root, and the resolved id is the folder of every
asset-create call of the run. -/
theorem c6_folder_resolution (env1 env2 env3 : Env) (b : Body)
    (items1 items2 items3 : List Folder) (root1 root2 hfld : Folder) (nid : Nat)
    (tok sf : String)
    (hb : b.folderId = none)
    (h1f : env1.folders = Except.ok items1)
    (h1r : items1.find? isContentBuilderRoot = some root1)
    (h1c : items1.find? (isHubspotChild root1.id) = some hfld)
    (h2f : env2.folders = Except.ok items2)
    (h2r : items2.find? isContentBuilderRoot = some root2)
    (h2c : items2.find? (isHubspotChild root2.id) = none)
    (h2n : env2.createFolder = Except.ok nid)
    (hu : truthyS b.userId = true)
    (h3h : hubspotTokenResult env3 b = Except.ok tok)
    (h3s : sfmcTokenResult env3 b = Except.ok sf)
    (h3f : env3.folders = Except.ok items3)
    (h3r : items3.find? isContentBuilderRoot = none) :
    folderResult env1 b = Except.ok (hfld.id, []) ∧
    folderResult env2 b = Except.ok (nid, [("HubSpot Templates", root2.id)]) ∧
    allCallsUseFolder (post env2 b).2.createCalls nid = true ∧
    (post env3 b).1 = folderFailure := by
  have r2 : folderResult env2 b = Except.ok (nid, [("HubSpot Templates", root2.id)]) := by
    simp only [folderResult, hb, h2f, h2r, h2c, h2n]
  have r3 : folderResult env3 b = Except.error folderFailure := by
    simp only [folderResult, hb, h3f, h3r]
  refine ⟨?_, r2, post_folder env2 b nid _ r2, ?_⟩
  · simp only [folderResult, hb, h1f, h1r, h1c]
  · simp only [post, hu, if_true, h3h, h3s, r3]

/-- The conventional root folder. -/
def fldRoot : Folder := { id := 1, name := "Content Builder", parentId := none }

/-- An existing migrated-templates child under the root. -/
def fldChild : Folder := { id := 2, name := "HubSpot Templates", parentId := some 1 }

/-- A folder list with no `Content Builder` root. -/
def fldOther : Folder := { id := 3, name := "Marketing", parentId := none }

/-- World whose folder list has root and child. -/
def envC6a : Env := { envBase with folders := Except.ok [fldRoot, fldChild] }

/-- World whose folder list has the root but no child. -/
def envC6b : Env := { envBase with folders := Except.ok [fldRoot] }

/-- World whose folder list has no root. -/
def envC6c : Env := { envBase with folders := Except.ok [fldOther] }

/-- A body that leaves folder resolution to the run. -/
def bodyC6 : Body := { bodyBase with folderId := none }

/-- Witness for `c6_folder_resolution` at concrete folder worlds. -/
theorem c6_folder_resolution_witness :
    (bodyC6.folderId = none ∧
     [fldRoot, fldChild].find? isContentBuilderRoot = some fldRoot ∧
     [fldRoot, fldChild].find? (isHubspotChild fldRoot.id) = some fldChild ∧
     [fldRoot].find? isContentBuilderRoot = some fldRoot ∧
     [fldRoot].find? (isHubspotChild fldRoot.id) = none ∧
     envC6b.createFolder = Except.ok 77 ∧
     [fldOther].find? isContentBuilderRoot = none) ∧
    (folderResult envC6a bodyC6 = Except.ok (2, []) ∧
     folderResult envC6b bodyC6 = Except.ok (77, [("HubSpot Templates", 1)]) ∧
     allCallsUseFolder (post envC6b bodyC6).2.createCalls 77 = true ∧
     (post envC6c bodyC6).1 = folderFailure) :=
  ⟨⟨rfl, rfl, rfl, rfl, rfl, rfl, rfl⟩,
   c6_folder_resolution envC6a envC6b envC6c bodyC6 [fldRoot, fldChild] [fldRoot] [fldOther]
     fldRoot fldRoot fldChild 77 "ht" "sfmc-token"
     rfl rfl rfl rfl rfl rfl rfl rfl rfl rfl rfl rfl rfl⟩

/-! ## C7 — credential resolution failures -/

/-- Source credential store access fails. -/
def envC7 : Env := { envBase with hubspotStore := Except.error () }

/-- A body resolving both credentials from the store. -/
def bodyStoreOnly : Body := { userId := some "u" }

/-- Claim C7 (counterexample): a credential-store access failure on the source
side aborts the run with HTTP 500 (line 45-48), not the claimed 400. -/
theorem c7_status_counterexample :
    (post envC7 bodyStoreOnly).1 =
      Response.failure 500 "Database error retrieving HubSpot tokens." none ∧
    statusOf (post envC7 bodyStoreOnly).1 ≠ 400 :=
  ⟨rfl, by decide⟩

/-- Claim C7 (amended): missing stored credentials for either system and an
SFMC store failure abort with HTTP 400; a HubSpot store failure aborts with
HTTP 500; each of the four cases carries a distinct message and no run returns
a partial summary. -/
theorem c7_credential_failures (enva envb envc envd : Env) (b1 b2 : Body)
    (hu1 : truthyS b1.userId = true)
    (ht1 : truthyS b1.hubspotToken = false)
    (ha : enva.hubspotStore = Except.ok none)
    (hbq : envb.hubspotStore = Except.error ())
    (hu2 : truthyS b2.userId = true)
    (ht2 : truthyS b2.hubspotToken = true)
    (hcred2 : sfmcComplete b2 = false)
    (hc : envc.sfmcStore = Except.ok none)
    (hd : envd.sfmcStore = Except.error ()) :
    (post enva b1).1 =
      Response.failure 400 "Missing HubSpot token. Please reconnect to HubSpot." none ∧
    (post envb b1).1 =
      Response.failure 500 "Database error retrieving HubSpot tokens." none ∧
    (post envc b2).1 =
      Response.failure 400 "Missing SFMC credentials. Please connect SFMC." none ∧
    (post envd b2).1 =
      Response.failure 400 "No SFMC credentials provided or found in database." none ∧
    totalAttemptedOf (post enva b1).1 = none ∧
    totalAttemptedOf (post envb b1).1 = none ∧
    totalAttemptedOf (post envc b2).1 = none ∧
    totalAttemptedOf (post envd b2).1 = none := by
  have ra : hubspotTokenResult enva b1 =
      Except.error (Response.failure 400 "Missing HubSpot token. Please reconnect to HubSpot." none) := by
    simp only [hubspotTokenResult, ht1, Bool.false_eq_true, if_false, ha]
  have rb : hubspotTokenResult envb b1 =
      Except.error (Response.failure 500 "Database error retrieving HubSpot tokens." none) := by
    simp only [hubspotTokenResult, ht1, Bool.false_eq_true, if_false, hbq]
  have rc1 : hubspotTokenResult envc b2 = Except.ok (b2.hubspotToken.getD "") := by
    simp only [hubspotTokenResult, ht2, if_true]
  have rd1 : hubspotTokenResult envd b2 = Except.ok (b2.hubspotToken.getD "") := by
    simp only [hubspotTokenResult, ht2, if_true]
  have rc2 : sfmcTokenResult envc b2 =
      Except.error (Response.failure 400 "Missing SFMC credentials. Please connect SFMC." none) := by
    simp only [sfmcTokenResult, hcred2, Bool.false_eq_true, if_false, hc]
  have rd2 : sfmcTokenResult envd b2 =
      Except.error (Response.failure 400 "No SFMC credentials provided or found in database." none) := by
    simp only [sfmcTokenResult, hcred2, Bool.false_eq_true, if_false, hd]
  refine ⟨?_, ?_, ?_, ?_, ?_, ?_, ?_, ?_⟩
  · simp only [post, hu1, if_true, ra]
  · simp only [post, hu1, if_true, rb]
  · simp only [post, hu2, if_true, rc1, rc2]
  · simp only [post, hu2, if_true, rd1, rd2]
  · simp only [post, hu1, if_true, ra, totalAttemptedOf]
  · simp only [post, hu1, if_true, rb, totalAttemptedOf]
  · simp only [post, hu2, if_true, rc1, rc2, totalAttemptedOf]
  · simp only [post, hu2, if_true, rd1, rd2, totalAttemptedOf]

/-- Source store has no HubSpot record. -/
def envC7a : Env := { envBase with hubspotStore := Except.ok none }

/-- Destination store has no SFMC record. -/
def envC7c : Env := { envBase with sfmcStore := Except.ok none }

/-- Destination store access fails. -/
def envC7d : Env := { envBase with sfmcStore := Except.error () }

/-- A body whose SFMC credentials come from the store. -/
def bodySfmcStore : Body := { userId := some "u", hubspotToken := some "ht" }

/-- Witness for `c7_credential_failures` at concrete store worlds. -/
theorem c7_credential_failures_witness :
    (truthyS bodyStoreOnly.userId = true ∧ truthyS bodyStoreOnly.hubspotToken = false ∧
     truthyS bodySfmcStore.hubspotToken = true ∧ sfmcComplete bodySfmcStore = false) ∧
    ((post envC7a bodyStoreOnly).1 =
       Response.failure 400 "Missing HubSpot token. Please reconnect to HubSpot." none ∧
     (post envC7 bodyStoreOnly).1 =
       Response.failure 500 "Database error retrieving HubSpot tokens." none ∧
     (post envC7c bodySfmcStore).1 =
       Response.failure 400 "Missing SFMC credentials. Please connect SFMC." none ∧
     (post envC7d bodySfmcStore).1 =
       Response.failure 400 "No SFMC credentials provided or found in database." none ∧
     totalAttemptedOf (post envC7a bodyStoreOnly).1 = none ∧
     totalAttemptedOf (post envC7 bodyStoreOnly).1 = none ∧
     totalAttemptedOf (post envC7c bodySfmcStore).1 = none ∧
     totalAttemptedOf (post envC7d bodySfmcStore).1 = none) :=
  ⟨⟨rfl, rfl, rfl, rfl⟩,
   c7_credential_failures envC7a envC7 envC7c envC7d bodyStoreOnly bodySfmcStore
     rfl rfl rfl rfl rfl rfl rfl rfl rfl⟩

/-! ## C8 — limit truncation -/

/-- Claim C8: in fetch mode the fetched list is truncated to the first
`limit` items (default 10 when the body has none), after the fetch completes
and before any conversion or creation, so at most `limit` templates are
attempted. -/
theorem c8_limit_truncation (env : Env) (b : Body) (tok sf : String)
    (fid : Nat) (fcs : List (String × Nat)) (l : List Tmpl)
    (hu : truthyS b.userId = true)
    (hh : hubspotTokenResult env b = Except.ok tok)
    (hs : sfmcTokenResult env b = Except.ok sf)
    (hf : folderResult env b = Except.ok (fid, fcs))
    (hc : isCustomMode b = false)
    (hfc : fetchChain env = Except.ok l)
    (hne : l.isEmpty = false) :
    attemptedList env b = l.take (limitVal b) ∧
    (post env b).2.createCalls =
      (processItems (fetchedOutcome env fid) (l.take (limitVal b))).2.2 ∧
    totalAttemptedOf (post env b).1 = some (min (limitVal b) l.length) ∧
    (l.take (limitVal b)).length ≤ limitVal b ∧
    limitVal { b with limit := none } = 10 := by
  refine ⟨?_, ?_, ?_, ?_, ?_⟩
  · simp [attemptedList, hc, hfc]
  · simp only [post, hu, if_true, hh, hs, hf, hc, Bool.false_eq_true, if_false, hfc, hne]
  · simp only [post, hu, if_true, hh, hs, hf, hc, Bool.false_eq_true, if_false, hfc, hne,
      totalAttemptedOf, List.length_take]
  · simp [List.length_take]
  · simp [limitVal]

/-- Fetch mode returns three templates. -/
def envC8 : Env := { envBase with ep1 := Except.ok [tmplPromo, tmplBoth, tmplA] }

/-- A body asking for at most two templates. -/
def bodyC8 : Body := { bodyBase with limit := some 2 }

/-- Witness for `c8_limit_truncation` at a concrete three-template fetch. -/
theorem c8_limit_truncation_witness :
    (isCustomMode bodyC8 = false ∧ fetchChain envC8 = Except.ok [tmplPromo, tmplBoth, tmplA]) ∧
    (attemptedList envC8 bodyC8 = [tmplPromo, tmplBoth, tmplA].take (limitVal bodyC8) ∧
     (post envC8 bodyC8).2.createCalls =
       (processItems (fetchedOutcome envC8 5) ([tmplPromo, tmplBoth, tmplA].take (limitVal bodyC8))).2.2 ∧
     totalAttemptedOf (post envC8 bodyC8).1 = some (min (limitVal bodyC8) 3) ∧
     ([tmplPromo, tmplBoth, tmplA].take (limitVal bodyC8)).length ≤ limitVal bodyC8 ∧
     limitVal { bodyC8 with limit := none } = 10) :=
  ⟨⟨rfl, rfl⟩,
   c8_limit_truncation envC8 bodyC8 "ht" "sfmc-token" 5 [] [tmplPromo, tmplBoth, tmplA]
     rfl rfl rfl rfl rfl rfl rfl⟩

/-! ## C9 — custom-mode placeholder markup -/

/-- Claim C9: in custom mode a supplied template with neither `content` nor
`html` is never skipped: its markup is the placeholder
`<p>Template: NAME</p>` and it still contributes exactly one entry to
`migrated` or `errors`. -/
theorem c9_custom_placeholder (env : Env) (fid : Nat) (t : Tmpl) (rest : List Tmpl)
    (hcon : truthyS t.content = false)
    (hht : truthyS t.html = false) :
    customMarkup t = "<p>Template: " ++ t.name ++ "</p>" ∧
    customOutcome env fid t ≠ ItemOutcome.skipped ∧
    (processItems (customOutcome env fid) (t :: rest)).1.length +
        (processItems (customOutcome env fid) (t :: rest)).2.1.length =
      (processItems (customOutcome env fid) rest).1.length +
        (processItems (customOutcome env fid) rest).2.1.length + 1 := by
  refine ⟨?_, customOutcome_ne_skipped env fid t, ?_⟩
  · simp [customMarkup, orS, hcon, hht]
  · cases h : customOutcome env fid t with
    | skipped => exact absurd h (customOutcome_ne_skipped env fid t)
    | migrated m c =>
      simp [processItems, h]
      omega
    | failed e c =>
      simp [processItems, h]
      omega

/-- Witness for `c9_custom_placeholder` at a content-less custom template. -/
theorem c9_custom_placeholder_witness :
    (truthyS tmplA0.content = false ∧ truthyS tmplA0.html = false) ∧
    (customMarkup tmplA0 = "<p>Template: " ++ tmplA0.name ++ "</p>" ∧
     customOutcome envBase 5 tmplA0 ≠ ItemOutcome.skipped ∧
     (processItems (customOutcome envBase 5) (tmplA0 :: [])).1.length +
         (processItems (customOutcome envBase 5) (tmplA0 :: [])).2.1.length =
       (processItems (customOutcome envBase 5) []).1.length +
         (processItems (customOutcome envBase 5) []).2.1.length + 1) :=
  ⟨⟨rfl, rfl⟩, c9_custom_placeholder envBase 5 tmplA0 [] rfl rfl⟩

/-! ## C10 — empty or non-array customTemplates -/

/-- Claim C10: an empty-array or non-array `customTemplates` does not enter
custom mode; the run is identical to one with the field absent, and it
reaches the fetch chain. -/
theorem c10_empty_custom_is_fetch (env : Env) (b : Body) (tok sf : String)
    (fid : Nat) (fcs : List (String × Nat))
    (hu : truthyS b.userId = true)
    (hh : hubspotTokenResult env b = Except.ok tok)
    (hs : sfmcTokenResult env b = Except.ok sf)
    (hf : folderResult env b = Except.ok (fid, fcs)) :
    isCustomMode { b with customTemplates := some (CustomField.arr []) } = false ∧
    isCustomMode { b with customTemplates := some CustomField.notArr } = false ∧
    post env { b with customTemplates := some (CustomField.arr []) } =
      post env { b with customTemplates := none } ∧
    post env { b with customTemplates := some CustomField.notArr } =
      post env { b with customTemplates := none } ∧
    (post env { b with customTemplates := some (CustomField.arr []) }).2.fetchInvoked = true := by
  have he : post env { b with customTemplates := some (CustomField.arr []) } =
      post env { b with customTemplates := none } := rfl
  have hn : post env { b with customTemplates := some CustomField.notArr } =
      post env { b with customTemplates := none } := rfl
  refine ⟨rfl, rfl, he, hn, ?_⟩
  have hu' : truthyS (Body.userId { b with customTemplates := some (CustomField.arr []) }) = true := hu
  have hh' : hubspotTokenResult env { b with customTemplates := some (CustomField.arr []) } =
      Except.ok tok := hh
  have hs' : sfmcTokenResult env { b with customTemplates := some (CustomField.arr []) } =
      Except.ok sf := hs
  have hf' : folderResult env { b with customTemplates := some (CustomField.arr []) } =
      Except.ok (fid, fcs) := hf
  simp only [post, hu', if_true, hh', hs', hf']
  cases hfc : fetchChain env with
  | error e => rfl
  | ok l =>
    by_cases hemp : l.isEmpty
    · simp only [hemp, if_true]
      rfl
    · simp only [hemp, Bool.false_eq_true, if_false]
      rfl

/-- Witness for `c10_empty_custom_is_fetch` at a concrete world. -/
theorem c10_empty_custom_is_fetch_witness :
    (truthyS bodyBase.userId = true ∧
     folderResult envBase bodyBase = Except.ok (5, [])) ∧
    (isCustomMode { bodyBase with customTemplates := some (CustomField.arr []) } = false ∧
     isCustomMode { bodyBase with customTemplates := some CustomField.notArr } = false ∧
     post envBase { bodyBase with customTemplates := some (CustomField.arr []) } =
       post envBase { bodyBase with customTemplates := none } ∧
     post envBase { bodyBase with customTemplates := some CustomField.notArr } =
       post envBase { bodyBase with customTemplates := none } ∧
     (post envBase { bodyBase with customTemplates := some (CustomField.arr []) }).2.fetchInvoked = true) :=
  ⟨⟨rfl, rfl⟩,
   c10_empty_custom_is_fetch envBase bodyBase "ht" "sfmc-token" 5 [] rfl rfl rfl rfl⟩
